import Mathlib

/-!
Shallow embedding of the admission-control subsystem of
`src/src/rateLimit.ts` (class `RateLimiter`).

Timestamps and JS numbers are modelled as `Int`; the four private `Map`s
of the class are modelled as association lists (`List (String × _)`),
mutation as explicit state passing.  Each TypeScript method becomes a
Lean function threading the `RLState`; a deny result carries a tag
naming the error message the TypeScript code would return.
-/

set_option autoImplicit false

namespace VDS

/-- First-match association-list lookup, mirroring `Map.get`. -/
def lookupA {α : Type} (k : String) : List (String × α) → Option α
  | [] => none
  | (k2, v) :: rest => if k2 = k then some v else lookupA k rest

/-- Replace the binding of `k` in place, or append it, mirroring `Map.set`. -/
def insertA {α : Type} (k : String) (v : α) : List (String × α) → List (String × α)
  | [] => [(k, v)]
  | (k2, v2) :: rest => if k2 = k then (k, v) :: rest else (k2, v2) :: insertA k v rest

/-- Remove the binding of `k`, mirroring `Map.delete`. -/
def eraseA {α : Type} (k : String) : List (String × α) → List (String × α)
  | [] => []
  | (k2, v2) :: rest => if k2 = k then rest else (k2, v2) :: eraseA k rest

/-- JS `Set.add`: keep insertion order, ignore duplicates. -/
def addToSet (x : String) (l : List String) : List String :=
  if x ∈ l then l else l ++ [x]

/-- `interface RateLimitEntry` (the optional `lastRetrieval` is `Option Int`). -/
structure RateLimitEntry where
  count : Int
  lastReset : Int
  lastComment : Int
  lastRetrieval : Option Int
deriving DecidableEq, Repr

/-- `interface UserIPMapping`; the JS `Set<string>` of ips is a duplicate-free
list in insertion order. -/
structure UserIPMapping where
  username : String
  ips : List String
  totalDailyComments : Int
  lastReset : Int
deriving DecidableEq, Repr

/-- `interface AuthAttemptEntry`. -/
structure AuthAttemptEntry where
  count : Int
  lastAttempt : Int
  lockoutUntil : Int
deriving DecidableEq, Repr

/-- The four private maps of class `RateLimiter`. -/
structure RLState where
  ipLimits : List (String × RateLimitEntry)
  userLimits : List (String × RateLimitEntry)
  userIPMappings : List (String × UserIPMapping)
  authLimits : List (String × AuthAttemptEntry)
deriving DecidableEq, Repr

def emptyState : RLState := ⟨[], [], [], []⟩

/-- The three configurable readonly fields of `RateLimiter`. -/
structure Config where
  DAILY_LIMIT : Int
  COMMENT_INTERVAL : Int
  RETRIEVAL_INTERVAL : Int
deriving DecidableEq, Repr

def DAY_IN_MS : Int := 24 * 60 * 60 * 1000
def MAX_LOGIN_ATTEMPTS : Int := 5
def LOCKOUT_PERIOD : Int := 15 * 60 * 1000

/-- `Number(env) || default`: `0` (and a non-numeric value, which gives `NaN`)
is falsy in JS, so it falls back to the default. -/
def numOr (x : Option Int) (d : Int) : Int :=
  match x with
  | none => d
  | some v => if v = 0 then d else v

/-- The constructor of `RateLimiter`: under `NODE_ENV=test` the limits are
fixed (100/1000/500), otherwise they come from the environment via
`Number(...) || default` (100/5000/1000). -/
def mkConfig (isTest : Bool) (envDaily envComment envRetrieval : Option Int) : Config :=
  { DAILY_LIMIT := if isTest then 100 else numOr envDaily 100
    COMMENT_INTERVAL := if isTest then 1000 else numOr envComment 5000
    RETRIEVAL_INTERVAL := if isTest then 500 else numOr envRetrieval 1000 }

/-- Tags for the distinct deny messages the TypeScript code returns. -/
inductive DenyReason
  | ipDaily
  | ipInterval
  | userDaily
  | userInterval
  | crossIP
  | authLockout
  | retrievalWait
  | retrievalCross
deriving DecidableEq, Repr

/-- `{ allowed: true }` or `{ allowed: false, error: ... }`. -/
inductive CheckResult
  | allow
  | deny (r : DenyReason)
deriving DecidableEq, Repr

def CheckResult.isAllowed : CheckResult → Bool
  | .allow => true
  | .deny _ => false

/-- `checkAuthRateLimit` (reads `authLimits` only, never mutates). -/
def checkAuthRateLimit (identifier : String) (now : Int) (s : RLState) : CheckResult :=
  match lookupA identifier s.authLimits with
  | none => .allow
  | some e => if now < e.lockoutUntil then .deny .authLockout else .allow

/-- `recordFailedLogin`. -/
def recordFailedLogin (identifier : String) (now : Int) (s : RLState) : RLState :=
  let e0 : AuthAttemptEntry :=
    match lookupA identifier s.authLimits with
    | none => ⟨1, now, 0⟩
    | some e =>
        ⟨if now - e.lastAttempt > LOCKOUT_PERIOD then 1 else e.count + 1, now, e.lockoutUntil⟩
  let e1 := if e0.count ≥ MAX_LOGIN_ATTEMPTS then
              { e0 with lockoutUntil := now + LOCKOUT_PERIOD } else e0
  { s with authLimits := insertA identifier e1 s.authLimits }

/-- `resetLoginAttempts`. -/
def resetLoginAttempts (identifier : String) (s : RLState) : RLState :=
  { s with authLimits := eraseA identifier s.authLimits }

/-- `updateUserIPMapping`. -/
def updateUserIPMapping (username ip : String) (now : Int) (s : RLState) : RLState :=
  match lookupA username s.userIPMappings with
  | none =>
      { s with userIPMappings := insertA username ⟨username, [ip], 0, now⟩ s.userIPMappings }
  | some m =>
      let m1 := if now - m.lastReset ≥ DAY_IN_MS
                then { m with totalDailyComments := 0, lastReset := now } else m
      { s with userIPMappings :=
          insertA username { m1 with ips := addToSet ip m1.ips } s.userIPMappings }

/-- `checkIPLimit`: lazily creates the entry, performs the lazy daily reset,
then checks the daily cap and the comment interval. -/
def checkIPLimit (cfg : Config) (ip : String) (now : Int) (s : RLState) :
    CheckResult × RLState :=
  let e0 : RateLimitEntry :=
    match lookupA ip s.ipLimits with
    | none => ⟨0, now, 0, some 0⟩
    | some e => e
  let e1 := if now - e0.lastReset ≥ DAY_IN_MS
            then { e0 with count := 0, lastReset := now } else e0
  let s1 := { s with ipLimits := insertA ip e1 s.ipLimits }
  if e1.count ≥ cfg.DAILY_LIMIT then (.deny .ipDaily, s1)
  else if now - e1.lastComment < cfg.COMMENT_INTERVAL then (.deny .ipInterval, s1)
  else (.allow, s1)

/-- `checkUserLimit`: same shape as `checkIPLimit` on the `userLimits` map. -/
def checkUserLimit (cfg : Config) (username : String) (now : Int) (s : RLState) :
    CheckResult × RLState :=
  let e0 : RateLimitEntry :=
    match lookupA username s.userLimits with
    | none => ⟨0, now, 0, some 0⟩
    | some e => e
  let e1 := if now - e0.lastReset ≥ DAY_IN_MS
            then { e0 with count := 0, lastReset := now } else e0
  let s1 := { s with userLimits := insertA username e1 s.userLimits }
  if e1.count ≥ cfg.DAILY_LIMIT then (.deny .userDaily, s1)
  else if now - e1.lastComment < cfg.COMMENT_INTERVAL then (.deny .userInterval, s1)
  else (.allow, s1)

/-- The `for (const associatedIP of mapping.ips)` loop of
`checkAggregationLimit`: lazily resets each associated ip entry, then
compares `ipLimit.count + aggregatedCount` against the daily limit. -/
def aggLoop (cfg : Config) (aggregatedCount : Int) (now : Int) :
    List String → RLState → CheckResult × RLState
  | [], s => (.allow, s)
  | ip :: rest, s =>
    match lookupA ip s.ipLimits with
    | none => aggLoop cfg aggregatedCount now rest s
    | some e =>
      let e1 := if now - e.lastReset ≥ DAY_IN_MS
                then { e with count := 0, lastReset := now } else e
      let s1 := { s with ipLimits := insertA ip e1 s.ipLimits }
      if e1.count + aggregatedCount ≥ cfg.DAILY_LIMIT then (.deny .crossIP, s1)
      else aggLoop cfg aggregatedCount now rest s1

/-- `checkAggregationLimit` (the `ip` argument is unused in the source too). -/
def checkAggregationLimit (cfg : Config) (username : String) (_ip : String)
    (now : Int) (s : RLState) : CheckResult × RLState :=
  match lookupA username s.userIPMappings with
  | none => (.allow, s)
  | some m =>
    if m.ips.length ≤ 1 then (.allow, s)
    else aggLoop cfg m.totalDailyComments now m.ips s

/-- `checkRateLimit`: linkage update, then IP, user and aggregation checks,
short-circuiting on the first deny (earlier mutations persist). -/
def checkRateLimit (cfg : Config) (ip username : String) (now : Int) (s : RLState) :
    CheckResult × RLState :=
  let s0 := updateUserIPMapping username ip now s
  match checkIPLimit cfg ip now s0 with
  | (.deny r, s1) => (.deny r, s1)
  | (.allow, s1) =>
    match checkUserLimit cfg username now s1 with
    | (.deny r, s2) => (.deny r, s2)
    | (.allow, s2) =>
      match checkAggregationLimit cfg username ip now s2 with
      | (.deny r, s3) => (.deny r, s3)
      | (.allow, s3) => (.allow, s3)

/-- `incrementIPCount`; the source dereferences `this.ipLimits.get(ip)!`,
so a missing entry is a runtime error, modelled as `none`. -/
def incrementIPCount (ip : String) (now : Int) (s : RLState) : Option RLState :=
  match lookupA ip s.ipLimits with
  | none => none
  | some e =>
      let e1 := { e with count := e.count + 1, lastComment := now }
      some { s with ipLimits := insertA ip e1 s.ipLimits }

/-- `incrementUserCount`. -/
def incrementUserCount (username : String) (now : Int) (s : RLState) : Option RLState :=
  match lookupA username s.userLimits with
  | none => none
  | some e =>
      let e1 := { e with count := e.count + 1, lastComment := now }
      some { s with userLimits := insertA username e1 s.userLimits }

/-- `incrementUserIPMappingCount`. -/
def incrementUserIPMappingCount (username : String) (s : RLState) : Option RLState :=
  match lookupA username s.userIPMappings with
  | none => none
  | some m =>
      let m1 := { m with totalDailyComments := m.totalDailyComments + 1 }
      some { s with userIPMappings := insertA username m1 s.userIPMappings }

/-- `recordComment`. -/
def recordComment (ip username : String) (now : Int) (s : RLState) : Option RLState :=
  (incrementIPCount ip now s).bind fun s1 =>
    (incrementUserCount username now s1).bind fun s2 =>
      incrementUserIPMappingCount username s2

/-- `_checkTimeInterval`: only a strictly positive recorded time is compared
against the interval; `0` and `undefined` mean "never". -/
def checkTimeInterval (now : Int) (lastTime : Option Int) (interval : Int)
    (r : DenyReason) : CheckResult :=
  match lastTime with
  | some t => if t > 0 then (if now - t < interval then .deny r else .allow) else .allow
  | none => .allow

/-- `checkIPRetrievalLimit`: lazily creates the entry, then gates on
`lastRetrieval` only. -/
def checkIPRetrievalLimit (cfg : Config) (ip : String) (now : Int) (s : RLState) :
    CheckResult × RLState :=
  let e : RateLimitEntry :=
    match lookupA ip s.ipLimits with
    | none => ⟨0, now, 0, some 0⟩
    | some e => e
  let s1 := { s with ipLimits := insertA ip e s.ipLimits }
  (checkTimeInterval now e.lastRetrieval cfg.RETRIEVAL_INTERVAL .retrievalWait, s1)

/-- `checkUserRetrievalLimit`. -/
def checkUserRetrievalLimit (cfg : Config) (username : String) (now : Int) (s : RLState) :
    CheckResult × RLState :=
  let e : RateLimitEntry :=
    match lookupA username s.userLimits with
    | none => ⟨0, now, 0, some 0⟩
    | some e => e
  let s1 := { s with userLimits := insertA username e s.userLimits }
  (checkTimeInterval now e.lastRetrieval cfg.RETRIEVAL_INTERVAL .retrievalWait, s1)

/-- The loop of `checkRetrievalAggregationLimit` (`ipLimit?.lastRetrieval`
propagates absence; no state mutation). -/
def retrievalAggLoop (cfg : Config) (now : Int) (s : RLState) :
    List String → CheckResult
  | [] => .allow
  | ip :: rest =>
    match checkTimeInterval now ((lookupA ip s.ipLimits).bind RateLimitEntry.lastRetrieval)
        cfg.RETRIEVAL_INTERVAL .retrievalCross with
    | .deny r => .deny r
    | .allow => retrievalAggLoop cfg now s rest

/-- `checkRetrievalAggregationLimit`. -/
def checkRetrievalAggregationLimit (cfg : Config) (username : String) (_ip : String)
    (now : Int) (s : RLState) : CheckResult :=
  match lookupA username s.userIPMappings with
  | none => .allow
  | some m =>
    if m.ips.length ≤ 1 then .allow
    else retrievalAggLoop cfg now s m.ips

/-- `checkRetrievalRateLimit`: the IP-stage check runs first; only when it
allows is the linkage updated and the user-stage checks run. -/
def checkRetrievalRateLimit (cfg : Config) (ip : String) (username : Option String)
    (now : Int) (s : RLState) : CheckResult × RLState :=
  match checkIPRetrievalLimit cfg ip now s with
  | (.deny r, s1) => (.deny r, s1)
  | (.allow, s1) =>
    match username with
    | none => (.allow, s1)
    | some u =>
      let s2 := updateUserIPMapping u ip now s1
      match checkUserRetrievalLimit cfg u now s2 with
      | (.deny r, s3) => (.deny r, s3)
      | (.allow, s3) =>
        match checkRetrievalAggregationLimit cfg u ip now s3 with
        | .deny r => (.deny r, s3)
        | .allow => (.allow, s3)

/-- `updateIPRetrievalTime`. -/
def updateIPRetrievalTime (ip : String) (now : Int) (s : RLState) : RLState :=
  match lookupA ip s.ipLimits with
  | none => { s with ipLimits := insertA ip ⟨0, now, 0, some now⟩ s.ipLimits }
  | some e => { s with ipLimits := insertA ip { e with lastRetrieval := some now } s.ipLimits }

/-- `updateUserRetrievalTime`. -/
def updateUserRetrievalTime (username : String) (now : Int) (s : RLState) : RLState :=
  match lookupA username s.userLimits with
  | none => { s with userLimits := insertA username ⟨0, now, 0, some now⟩ s.userLimits }
  | some e =>
      let e1 := { e with lastRetrieval := some now }
      { s with userLimits := insertA username e1 s.userLimits }

/-- `recordRetrieval`. -/
def recordRetrieval (ip : String) (username : Option String) (now : Int) (s : RLState) :
    RLState :=
  let s1 := updateIPRetrievalTime ip now s
  match username with
  | none => s1
  | some u => updateUserRetrievalTime u now s1

/-- `cleanup`: quota entries are evicted when `lastReset` AND `lastComment`
are both strictly older than `now - DAY_IN_MS` (`lastRetrieval` is not
consulted); linkage entries when `lastReset` is strictly older; auth
entries when past `lockoutUntil` and stale past the lockout period. -/
def cleanup (now : Int) (s : RLState) : RLState :=
  let dayAgo := now - DAY_IN_MS
  { ipLimits := s.ipLimits.filter fun kv =>
      if kv.2.lastReset < dayAgo ∧ kv.2.lastComment < dayAgo then false else true
    userLimits := s.userLimits.filter fun kv =>
      if kv.2.lastReset < dayAgo ∧ kv.2.lastComment < dayAgo then false else true
    userIPMappings := s.userIPMappings.filter fun kv =>
      if kv.2.lastReset < dayAgo then false else true
    authLimits := s.authLimits.filter fun kv =>
      if now > kv.2.lockoutUntil ∧ now - kv.2.lastAttempt > LOCKOUT_PERIOD then false
      else true }

/-! ## Map lemmas -/

/-- The keys of an association list are pairwise distinct (the `Map` invariant). -/
def keysNodup {α : Type} (l : List (String × α)) : Prop := (l.map Prod.fst).Nodup

theorem lookupA_insertA_self {α : Type} (k : String) (v : α) (l : List (String × α)) :
    lookupA k (insertA k v l) = some v := by
  induction l with
  | nil => simp [insertA, lookupA]
  | cons hd tl ih =>
    by_cases h : hd.1 = k
    · simp [insertA, lookupA, h]
    · simp [insertA, lookupA, h, ih]

theorem lookupA_insertA_ne {α : Type} {k k2 : String} (v : α) (l : List (String × α))
    (h : k2 ≠ k) : lookupA k2 (insertA k v l) = lookupA k2 l := by
  induction l with
  | nil => simp [insertA, lookupA, Ne.symm h]
  | cons hd tl ih =>
    by_cases hh : hd.1 = k
    · simp [insertA, lookupA, hh, Ne.symm h]
    · simp only [insertA, hh, if_false, lookupA]
      by_cases h2 : hd.1 = k2 <;> simp [h2, ih]

theorem lookupA_eq_none_of_not_mem {α : Type} {k : String} {l : List (String × α)}
    (h : k ∉ l.map Prod.fst) : lookupA k l = none := by
  induction l with
  | nil => rfl
  | cons hd tl ih =>
    simp only [List.map_cons, List.mem_cons] at h
    push_neg at h
    simp [lookupA, Ne.symm h.1, ih h.2]

theorem lookupA_eraseA_self {α : Type} {k : String} {l : List (String × α)}
    (hnd : keysNodup l) : lookupA k (eraseA k l) = none := by
  induction l with
  | nil => rfl
  | cons hd tl ih =>
    simp only [keysNodup, List.map_cons, List.nodup_cons] at hnd
    by_cases h : hd.1 = k
    · simp only [eraseA, h, if_true]
      exact lookupA_eq_none_of_not_mem (h ▸ hnd.1)
    · simp [eraseA, lookupA, h, ih hnd.2]

theorem not_mem_keys_filter {α : Type} {k : String} {l : List (String × α)}
    (p : String × α → Bool) (h : k ∉ l.map Prod.fst) :
    k ∉ (l.filter p).map Prod.fst := by
  intro hmem
  exact h (List.map_subset Prod.fst (List.filter_subset' l) hmem)

theorem lookupA_filter {α : Type} (p : String × α → Bool) {k : String} {v : α}
    {l : List (String × α)} (hnd : keysNodup l) (h : lookupA k l = some v) :
    lookupA k (l.filter p) = if p (k, v) then some v else none := by
  induction l with
  | nil => simp [lookupA] at h
  | cons hd tl ih =>
    simp only [keysNodup, List.map_cons, List.nodup_cons] at hnd
    by_cases hk : hd.1 = k
    · have hv : hd.2 = v := by
        simp only [lookupA, hk, if_true] at h
        exact Option.some.inj h
      have hdk : hd = (k, v) := by
        cases hd; simp only at hk hv; simp [hk, hv]
      subst hdk
      have hnone : lookupA k (tl.filter p) = none :=
        lookupA_eq_none_of_not_mem (not_mem_keys_filter p hnd.1)
      by_cases hp : p (k, v)
      · simp [List.filter, hp, lookupA]
      · simp [List.filter, hp, hnone]
    · have h2 : lookupA k tl = some v := by
        simpa [lookupA, hk] using h
      have := ih hnd.2 h2
      cases hp2 : p hd <;> simp [List.filter, hp2, lookupA, hk, this]

/-! ## Concrete artifacts shared by witnesses and counterexamples -/

/-- The configuration the class uses under `NODE_ENV=test`. -/
def cfgT : Config := ⟨100, 1000, 500⟩

/-- A state with one address entry and one identity entry, both a day old. -/
def staleState : RLState :=
  { emptyState with
    ipLimits := [("1.2.3.4", ⟨7, 0, 3, some 4⟩)]
    userLimits := [("u", ⟨9, 0, 5, some 6⟩)] }

/-! ## Claim C5 -/

/-- Claim C5: for every key and every prior accumulated count, the daily count
resets to 0 as soon as a check runs with `now - dailyResetAt ≥ 24h`: both
`checkIPLimit` and `checkUserLimit` write `count = 0`, `lastReset = now` into
the store during the check itself, before any record. -/
theorem C5_daily_reset_on_check (cfg : Config) (ip username : String) (now : Int)
    (s : RLState) (eip eu : RateLimitEntry)
    (hip : lookupA ip s.ipLimits = some eip)
    (hsip : now - eip.lastReset ≥ DAY_IN_MS)
    (hu : lookupA username s.userLimits = some eu)
    (hsu : now - eu.lastReset ≥ DAY_IN_MS) :
    lookupA ip ((checkIPLimit cfg ip now s).2).ipLimits =
      some { eip with count := 0, lastReset := now } ∧
    lookupA username ((checkUserLimit cfg username now s).2).userLimits =
      some { eu with count := 0, lastReset := now } := by
  constructor
  · simp only [checkIPLimit, hip, if_pos hsip]
    split_ifs <;> simp [lookupA_insertA_self]
  · simp only [checkUserLimit, hu, if_pos hsu]
    split_ifs <;> simp [lookupA_insertA_self]

/-- Witness for C5 at a concrete day-old state. -/
theorem C5_daily_reset_on_check_witness :
    lookupA "1.2.3.4" ((checkIPLimit cfgT "1.2.3.4" DAY_IN_MS staleState).2).ipLimits =
      some ⟨0, DAY_IN_MS, 3, some 4⟩ ∧
    lookupA "u" ((checkUserLimit cfgT "u" DAY_IN_MS staleState).2).userLimits =
      some ⟨0, DAY_IN_MS, 5, some 6⟩ :=
  C5_daily_reset_on_check cfgT "1.2.3.4" "u" DAY_IN_MS staleState
    ⟨7, 0, 3, some 4⟩ ⟨9, 0, 5, some 6⟩ rfl (by decide) rfl (by decide)

/-! ## Claim C7 -/

/-- Claim C7 counterexample: a post check is NOT a pure reader of `count`.
At a day-old entry with `count = 7`, `checkIPLimit` rewrites the stored
count to 0, so "a checkPost call leaves that key's count unchanged" is
false at this input. -/
theorem C7_counterexample :
    (lookupA "1.2.3.4" staleState.ipLimits).map RateLimitEntry.count = some 7 ∧
    (lookupA "1.2.3.4"
        ((checkIPLimit cfgT "1.2.3.4" DAY_IN_MS staleState).2).ipLimits).map
      RateLimitEntry.count = some 0 := by
  constructor <;> rfl

/-- Claim C7 (amended): a `checkIPLimit` / `checkUserLimit` call leaves the
key's `lastComment` (lastPostAt) and `lastRetrieval` unchanged and never
increments `count`; the only mutation of `count` during a check is the
documented lazy daily reset to 0, and when `now - lastReset < 24h` the
entry is left entirely unchanged. -/
theorem C7_check_frame (cfg : Config) (ip username : String) (now : Int)
    (s : RLState) (eip eu : RateLimitEntry)
    (hip : lookupA ip s.ipLimits = some eip)
    (hu : lookupA username s.userLimits = some eu) :
    (∃ e2, lookupA ip ((checkIPLimit cfg ip now s).2).ipLimits = some e2 ∧
      e2.lastComment = eip.lastComment ∧ e2.lastRetrieval = eip.lastRetrieval ∧
      e2.count = (if now - eip.lastReset ≥ DAY_IN_MS then 0 else eip.count) ∧
      (now - eip.lastReset < DAY_IN_MS → e2 = eip)) ∧
    (∃ e2, lookupA username ((checkUserLimit cfg username now s).2).userLimits = some e2 ∧
      e2.lastComment = eu.lastComment ∧ e2.lastRetrieval = eu.lastRetrieval ∧
      e2.count = (if now - eu.lastReset ≥ DAY_IN_MS then 0 else eu.count) ∧
      (now - eu.lastReset < DAY_IN_MS → e2 = eu)) := by
  constructor
  · by_cases hst : now - eip.lastReset ≥ DAY_IN_MS
    · refine ⟨{ eip with count := 0, lastReset := now }, ?_, rfl, rfl, ?_, ?_⟩
      · simp only [checkIPLimit, hip, if_pos hst]
        split_ifs <;> simp [lookupA_insertA_self]
      · simp [hst]
      · intro h; omega
    · refine ⟨eip, ?_, rfl, rfl, ?_, fun _ => rfl⟩
      · simp only [checkIPLimit, hip, if_neg hst]
        split_ifs <;> simp [lookupA_insertA_self]
      · simp [hst]
  · by_cases hst : now - eu.lastReset ≥ DAY_IN_MS
    · refine ⟨{ eu with count := 0, lastReset := now }, ?_, rfl, rfl, ?_, ?_⟩
      · simp only [checkUserLimit, hu, if_pos hst]
        split_ifs <;> simp [lookupA_insertA_self]
      · simp [hst]
      · intro h; omega
    · refine ⟨eu, ?_, rfl, rfl, ?_, fun _ => rfl⟩
      · simp only [checkUserLimit, hu, if_neg hst]
        split_ifs <;> simp [lookupA_insertA_self]
      · simp [hst]

/-- Witness for the amended C7 at a concrete fresh check. -/
theorem C7_check_frame_witness :
    (∃ e2, lookupA "1.2.3.4" ((checkIPLimit cfgT "1.2.3.4" 500 staleState).2).ipLimits =
        some e2 ∧
      e2.lastComment = (3 : Int) ∧ e2.lastRetrieval = some 4 ∧
      e2.count = (if (500 : Int) - 0 ≥ DAY_IN_MS then 0 else 7) ∧
      ((500 : Int) - 0 < DAY_IN_MS → e2 = ⟨7, 0, 3, some 4⟩)) ∧
    (∃ e2, lookupA "u" ((checkUserLimit cfgT "u" 500 staleState).2).userLimits = some e2 ∧
      e2.lastComment = (5 : Int) ∧ e2.lastRetrieval = some 6 ∧
      e2.count = (if (500 : Int) - 0 ≥ DAY_IN_MS then 0 else 9) ∧
      ((500 : Int) - 0 < DAY_IN_MS → e2 = ⟨9, 0, 5, some 6⟩)) :=
  C7_check_frame cfgT "1.2.3.4" "u" 500 staleState ⟨7, 0, 3, some 4⟩ ⟨9, 0, 5, some 6⟩
    rfl rfl

/-! ## Result characterizations for the post checks -/

theorem checkIPLimit_fst (cfg : Config) (ip : String) (now : Int) (s : RLState)
    (e : RateLimitEntry) (he : lookupA ip s.ipLimits = some e) :
    (checkIPLimit cfg ip now s).1 =
      if (if now - e.lastReset ≥ DAY_IN_MS then 0 else e.count) ≥ cfg.DAILY_LIMIT
      then CheckResult.deny DenyReason.ipDaily
      else if now - e.lastComment < cfg.COMMENT_INTERVAL
      then CheckResult.deny DenyReason.ipInterval
      else CheckResult.allow := by
  simp only [checkIPLimit, he]
  by_cases hst : now - e.lastReset ≥ DAY_IN_MS
  · simp only [hst, if_true]
    split_ifs <;> rfl
  · simp only [hst, if_false]
    split_ifs <;> rfl

theorem checkUserLimit_fst (cfg : Config) (username : String) (now : Int) (s : RLState)
    (e : RateLimitEntry) (he : lookupA username s.userLimits = some e) :
    (checkUserLimit cfg username now s).1 =
      if (if now - e.lastReset ≥ DAY_IN_MS then 0 else e.count) ≥ cfg.DAILY_LIMIT
      then CheckResult.deny DenyReason.userDaily
      else if now - e.lastComment < cfg.COMMENT_INTERVAL
      then CheckResult.deny DenyReason.userInterval
      else CheckResult.allow := by
  simp only [checkUserLimit, he]
  by_cases hst : now - e.lastReset ≥ DAY_IN_MS
  · simp only [hst, if_true]
    split_ifs <;> rfl
  · simp only [hst, if_false]
    split_ifs <;> rfl

/-! ## Claim C2 -/

/-- Claim C2: if `recordPost` (here `incrementIPCount`) succeeds at `t0`, a
`checkPost` (`checkIPLimit`) at any `t` with `t0 ≤ t < t0 + postInterval` is
denied, and at any `t ≥ t0 + postInterval` it is allowed provided the daily
cap is not exhausted (the entry's post-reset count is below the cap). -/
theorem C2_record_then_check (cfg : Config) (ip : String) (t0 : Int) (s s2 : RLState)
    (h : incrementIPCount ip t0 s = some s2) (t : Int) (e2 : RateLimitEntry)
    (he2 : lookupA ip s2.ipLimits = some e2) :
    (t0 ≤ t → t < t0 + cfg.COMMENT_INTERVAL →
       ∃ r, (checkIPLimit cfg ip t s2).1 = CheckResult.deny r) ∧
    (t0 + cfg.COMMENT_INTERVAL ≤ t →
       (if t - e2.lastReset ≥ DAY_IN_MS then 0 else e2.count) < cfg.DAILY_LIMIT →
       (checkIPLimit cfg ip t s2).1 = CheckResult.allow) := by
  rcases hes : lookupA ip s.ipLimits with _ | e
  · simp only [incrementIPCount, hes] at h
    exact Option.noConfusion h
  · simp only [incrementIPCount, hes, Option.some.injEq] at h
    have hs2 : s2.ipLimits =
        insertA ip { e with count := e.count + 1, lastComment := t0 } s.ipLimits := by
      rw [← h]
    have he2' := he2
    rw [hs2, lookupA_insertA_self] at he2'
    have heq : e2 = { e with count := e.count + 1, lastComment := t0 } :=
      (Option.some.inj he2').symm
    have hcomm : e2.lastComment = t0 := by rw [heq]
    constructor
    · intro h1 h2
      rw [checkIPLimit_fst cfg ip t s2 e2 he2]
      by_cases hc : (if t - e2.lastReset ≥ DAY_IN_MS then (0 : Int) else e2.count) ≥
          cfg.DAILY_LIMIT
      · rw [if_pos hc]
        exact ⟨_, rfl⟩
      · rw [if_neg hc, if_pos (by omega)]
        exact ⟨_, rfl⟩
    · intro h1 h2
      rw [checkIPLimit_fst cfg ip t s2 e2 he2]
      by_cases hst : t - e2.lastReset ≥ DAY_IN_MS
      · simp only [hst, if_true] at h2 ⊢
        rw [if_neg (by omega), if_neg (by omega)]
      · simp only [hst, if_false] at h2 ⊢
        rw [if_neg (by omega), if_neg (by omega)]

/-- The state after `incrementIPCount "1.2.3.4" 1000 staleState`. -/
def c2state : RLState :=
  { emptyState with
    ipLimits := [("1.2.3.4", ⟨8, 0, 1000, some 4⟩)]
    userLimits := [("u", ⟨9, 0, 5, some 6⟩)] }

/-- Witness for C2: a post recorded at t0 = 1000 (test interval 1000 ms) is
blocked at t = 1200 and admitted at t = 2000. -/
theorem C2_record_then_check_witness :
    (∃ r, (checkIPLimit cfgT "1.2.3.4" 1200 c2state).1 = CheckResult.deny r) ∧
    (checkIPLimit cfgT "1.2.3.4" 2000 c2state).1 = CheckResult.allow :=
  ⟨(C2_record_then_check cfgT "1.2.3.4" 1000 staleState c2state rfl 1200
      ⟨8, 0, 1000, some 4⟩ rfl).1 (by decide) (by decide),
   (C2_record_then_check cfgT "1.2.3.4" 1000 staleState c2state rfl 2000
      ⟨8, 0, 1000, some 4⟩ rfl).2 (by decide) (by decide)⟩

/-! ## More map lemmas -/

theorem insertA_insertA {α : Type} (k : String) (v1 v2 : α) (l : List (String × α)) :
    insertA k v2 (insertA k v1 l) = insertA k v2 l := by
  induction l with
  | nil => simp [insertA]
  | cons hd tl ih =>
    by_cases h : hd.1 = k
    · simp [insertA, h]
    · simp [insertA, h, ih]

theorem mem_keys_insertA {α : Type} {x k : String} (v : α) (l : List (String × α))
    (h : x ∈ (insertA k v l).map Prod.fst) : x = k ∨ x ∈ l.map Prod.fst := by
  induction l with
  | nil => simpa [insertA] using h
  | cons hd tl ih =>
    by_cases hh : hd.1 = k
    · simp only [insertA, hh, if_true, List.map_cons, List.mem_cons] at h
      rcases h with h | h
      · exact Or.inl h
      · exact Or.inr (by simp [h])
    · simp only [insertA, hh, if_false, List.map_cons, List.mem_cons] at h
      rcases h with h | h
      · exact Or.inr (by simp [h])
      · rcases ih h with h2 | h2
        · exact Or.inl h2
        · exact Or.inr (by simp [h2])

theorem keysNodup_insertA {α : Type} (k : String) (v : α) (l : List (String × α))
    (hnd : keysNodup l) : keysNodup (insertA k v l) := by
  induction l with
  | nil => simp [keysNodup, insertA]
  | cons hd tl ih =>
    simp only [keysNodup, List.map_cons, List.nodup_cons] at hnd
    by_cases hh : hd.1 = k
    · simp only [insertA, hh, if_true, keysNodup, List.map_cons, List.nodup_cons]
      exact ⟨hh ▸ hnd.1, hnd.2⟩
    · simp only [insertA, hh, if_false, keysNodup, List.map_cons, List.nodup_cons]
      refine ⟨fun hmem => ?_, ih hnd.2⟩
      rcases mem_keys_insertA v tl hmem with h2 | h2
      · exact hh h2
      · exact hnd.1 h2

/-! ## Step lemmas for the auth attempt tracker -/

theorem recordFailedLogin_fresh (id : String) (now : Int) (s : RLState)
    (h : lookupA id s.authLimits = none) :
    recordFailedLogin id now s =
      { s with authLimits := insertA id ⟨1, now, 0⟩ s.authLimits } := by
  have h2 : ¬((1 : Int) ≥ MAX_LOGIN_ATTEMPTS) := by decide
  simp only [recordFailedLogin, h, h2, if_false]

theorem recordFailedLogin_acc (id : String) (now : Int) (s : RLState)
    (e : AuthAttemptEntry) (h : lookupA id s.authLimits = some e)
    (hgap : now - e.lastAttempt ≤ LOCKOUT_PERIOD)
    (hcount : e.count + 1 < MAX_LOGIN_ATTEMPTS) :
    recordFailedLogin id now s =
      { s with authLimits := insertA id ⟨e.count + 1, now, e.lockoutUntil⟩ s.authLimits } := by
  have h1 : ¬(now - e.lastAttempt > LOCKOUT_PERIOD) := not_lt.mpr hgap
  have h2 : ¬(e.count + 1 ≥ MAX_LOGIN_ATTEMPTS) := not_le.mpr hcount
  simp only [recordFailedLogin, h, h1, if_false, h2]

theorem recordFailedLogin_lock (id : String) (now : Int) (s : RLState)
    (e : AuthAttemptEntry) (h : lookupA id s.authLimits = some e)
    (hgap : now - e.lastAttempt ≤ LOCKOUT_PERIOD)
    (hcount : e.count + 1 ≥ MAX_LOGIN_ATTEMPTS) :
    recordFailedLogin id now s =
      { s with authLimits :=
          insertA id ⟨e.count + 1, now, now + LOCKOUT_PERIOD⟩ s.authLimits } := by
  have h1 : ¬(now - e.lastAttempt > LOCKOUT_PERIOD) := not_lt.mpr hgap
  simp only [recordFailedLogin, h, h1, if_false, hcount, if_true]

/-! ## Claim C3 -/

/-- Claim C3: from a clean identifier, after exactly `MAX_LOGIN_ATTEMPTS = 5`
consecutive `recordFailedLogin` calls, each within the lockout window of the
previous one, the next `checkAuthRateLimit` inside the lockout window is
denied (after only 4 such failures it is still allowed), and
`resetLoginAttempts` deletes the entry unconditionally, so the very next
check after a success is allowed. -/
theorem C3_lockout (s : RLState) (id : String) (t1 t2 t3 t4 t5 t t' : Int)
    (h0 : lookupA id s.authLimits = none)
    (hnd : keysNodup s.authLimits)
    (h12 : t2 - t1 ≤ LOCKOUT_PERIOD) (h23 : t3 - t2 ≤ LOCKOUT_PERIOD)
    (h34 : t4 - t3 ≤ LOCKOUT_PERIOD) (h45 : t5 - t4 ≤ LOCKOUT_PERIOD)
    (ht0 : 0 ≤ t) (ht5 : t5 ≤ t') (ht5b : t' < t5 + LOCKOUT_PERIOD) :
    checkAuthRateLimit id t
      (recordFailedLogin id t4 (recordFailedLogin id t3 (recordFailedLogin id t2
        (recordFailedLogin id t1 s)))) = CheckResult.allow ∧
    checkAuthRateLimit id t'
      (recordFailedLogin id t5 (recordFailedLogin id t4 (recordFailedLogin id t3
        (recordFailedLogin id t2 (recordFailedLogin id t1 s))))) =
      CheckResult.deny DenyReason.authLockout ∧
    checkAuthRateLimit id t'
      (resetLoginAttempts id (recordFailedLogin id t5 (recordFailedLogin id t4
        (recordFailedLogin id t3 (recordFailedLogin id t2
          (recordFailedLogin id t1 s)))))) = CheckResult.allow := by
  have A1 : (recordFailedLogin id t1 s).authLimits =
      insertA id ⟨1, t1, 0⟩ s.authLimits := by
    rw [recordFailedLogin_fresh id t1 s h0]
  have e1 : lookupA id (recordFailedLogin id t1 s).authLimits = some ⟨1, t1, 0⟩ := by
    rw [A1]; exact lookupA_insertA_self _ _ _
  have A2 : (recordFailedLogin id t2 (recordFailedLogin id t1 s)).authLimits =
      insertA id ⟨2, t2, 0⟩ s.authLimits := by
    rw [recordFailedLogin_acc id t2 _ ⟨1, t1, 0⟩ e1 h12
      (by norm_num [MAX_LOGIN_ATTEMPTS]), A1, insertA_insertA]
    rfl
  have e2 : lookupA id (recordFailedLogin id t2 (recordFailedLogin id t1 s)).authLimits =
      some ⟨2, t2, 0⟩ := by
    rw [A2]; exact lookupA_insertA_self _ _ _
  have A3 : (recordFailedLogin id t3 (recordFailedLogin id t2
      (recordFailedLogin id t1 s))).authLimits =
      insertA id ⟨3, t3, 0⟩ s.authLimits := by
    rw [recordFailedLogin_acc id t3 _ ⟨2, t2, 0⟩ e2 h23
      (by norm_num [MAX_LOGIN_ATTEMPTS]), A2, insertA_insertA]
    rfl
  have e3 : lookupA id (recordFailedLogin id t3 (recordFailedLogin id t2
      (recordFailedLogin id t1 s))).authLimits = some ⟨3, t3, 0⟩ := by
    rw [A3]; exact lookupA_insertA_self _ _ _
  have A4 : (recordFailedLogin id t4 (recordFailedLogin id t3 (recordFailedLogin id t2
      (recordFailedLogin id t1 s)))).authLimits =
      insertA id ⟨4, t4, 0⟩ s.authLimits := by
    rw [recordFailedLogin_acc id t4 _ ⟨3, t3, 0⟩ e3 h34
      (by norm_num [MAX_LOGIN_ATTEMPTS]), A3, insertA_insertA]
    rfl
  have e4 : lookupA id (recordFailedLogin id t4 (recordFailedLogin id t3
      (recordFailedLogin id t2 (recordFailedLogin id t1 s)))).authLimits =
      some ⟨4, t4, 0⟩ := by
    rw [A4]; exact lookupA_insertA_self _ _ _
  have A5 : (recordFailedLogin id t5 (recordFailedLogin id t4 (recordFailedLogin id t3
      (recordFailedLogin id t2 (recordFailedLogin id t1 s))))).authLimits =
      insertA id ⟨5, t5, t5 + LOCKOUT_PERIOD⟩ s.authLimits := by
    rw [recordFailedLogin_lock id t5 _ ⟨4, t4, 0⟩ e4 h45
      (by norm_num [MAX_LOGIN_ATTEMPTS]), A4, insertA_insertA]
    rfl
  have e5 : lookupA id (recordFailedLogin id t5 (recordFailedLogin id t4
      (recordFailedLogin id t3 (recordFailedLogin id t2
        (recordFailedLogin id t1 s))))).authLimits =
      some ⟨5, t5, t5 + LOCKOUT_PERIOD⟩ := by
    rw [A5]; exact lookupA_insertA_self _ _ _
  refine ⟨?_, ?_, ?_⟩
  · simp only [checkAuthRateLimit, e4]
    rw [if_neg (by omega)]
  · simp only [checkAuthRateLimit, e5]
    rw [if_pos (by omega)]
  · have hnd5 : keysNodup (recordFailedLogin id t5 (recordFailedLogin id t4
        (recordFailedLogin id t3 (recordFailedLogin id t2
          (recordFailedLogin id t1 s))))).authLimits := by
      rw [A5]; exact keysNodup_insertA _ _ _ hnd
    simp only [checkAuthRateLimit, resetLoginAttempts, lookupA_eraseA_self hnd5]

/-- Witness for C3: identifier "bob", failures at 1000..5000 ms, check at
4500 ms after four failures (allowed), at 5000 ms after five (denied), and
after a reset (allowed). -/
theorem C3_lockout_witness :
    checkAuthRateLimit "bob" 4500
      (recordFailedLogin "bob" 4000 (recordFailedLogin "bob" 3000
        (recordFailedLogin "bob" 2000 (recordFailedLogin "bob" 1000 emptyState)))) =
      CheckResult.allow ∧
    checkAuthRateLimit "bob" 5000
      (recordFailedLogin "bob" 5000 (recordFailedLogin "bob" 4000
        (recordFailedLogin "bob" 3000 (recordFailedLogin "bob" 2000
          (recordFailedLogin "bob" 1000 emptyState))))) =
      CheckResult.deny DenyReason.authLockout ∧
    checkAuthRateLimit "bob" 5000
      (resetLoginAttempts "bob" (recordFailedLogin "bob" 5000
        (recordFailedLogin "bob" 4000 (recordFailedLogin "bob" 3000
          (recordFailedLogin "bob" 2000 (recordFailedLogin "bob" 1000 emptyState)))))) =
      CheckResult.allow :=
  C3_lockout emptyState "bob" 1000 2000 3000 4000 5000 4500 5000 rfl
    (by simp [keysNodup, emptyState])
    (by decide) (by decide) (by decide) (by decide) (by decide) (by decide) (by decide)

/-! ## Claim C4 -/

/-- An entry created by a retrieval check at t = 1000 and touched only by a
retrieval record at t = 86400000. -/
def c4state : RLState :=
  updateIPRetrievalTime "9.9.9.9" 86400000
    (checkIPRetrievalLimit cfgT "9.9.9.9" 1000 emptyState).2

/-- Claim C4 counterexample: this entry was touched (a retrieval) 1001 ms
before the sweep at now = 86401001, i.e. well within the last 24h, yet it is
absent after the sweep: `cleanup` only consults `lastReset` and `lastComment`,
never `lastRetrieval`, so "an entry touched by any operation within the last
24h survives the sweep" is false at this input. -/
theorem C4_counterexample :
    (lookupA "9.9.9.9" c4state.ipLimits).map RateLimitEntry.lastRetrieval =
      some (some 86400000) ∧
    lookupA "9.9.9.9" (cleanup 86401001 c4state).ipLimits = none := by
  constructor <;> rfl

/-- Claim C4 (amended): after a `cleanup` sweep at time `now`, an address or
identity quota entry survives iff NOT both its `lastReset` (dailyResetAt) and
its `lastComment` (lastPostAt) are strictly older than `now - 24h` — the
retrieval timestamp is ignored, so an entry whose only activity in the last
24h was retrievals is evicted — and a linkage entry survives iff its
`lastReset` is not strictly older than `now - 24h`. -/
theorem C4_cleanup_sweep (now : Int) (s : RLState)
    (hnd1 : keysNodup s.ipLimits) (hnd2 : keysNodup s.userLimits)
    (hnd3 : keysNodup s.userIPMappings)
    (ip username : String) (e eu : RateLimitEntry) (m : UserIPMapping)
    (hip : lookupA ip s.ipLimits = some e)
    (hu : lookupA username s.userLimits = some eu)
    (hm : lookupA username s.userIPMappings = some m) :
    lookupA ip (cleanup now s).ipLimits =
      (if e.lastReset < now - DAY_IN_MS ∧ e.lastComment < now - DAY_IN_MS
       then none else some e) ∧
    lookupA username (cleanup now s).userLimits =
      (if eu.lastReset < now - DAY_IN_MS ∧ eu.lastComment < now - DAY_IN_MS
       then none else some eu) ∧
    lookupA username (cleanup now s).userIPMappings =
      (if m.lastReset < now - DAY_IN_MS then none else some m) := by
  refine ⟨?_, ?_, ?_⟩
  · rw [show (cleanup now s).ipLimits = s.ipLimits.filter
        (fun kv => if kv.2.lastReset < now - DAY_IN_MS ∧
            kv.2.lastComment < now - DAY_IN_MS then false else true) from rfl,
      lookupA_filter _ hnd1 hip]
    by_cases hc : e.lastReset < now - DAY_IN_MS ∧ e.lastComment < now - DAY_IN_MS <;>
      simp [hc]
  · rw [show (cleanup now s).userLimits = s.userLimits.filter
        (fun kv => if kv.2.lastReset < now - DAY_IN_MS ∧
            kv.2.lastComment < now - DAY_IN_MS then false else true) from rfl,
      lookupA_filter _ hnd2 hu]
    by_cases hc : eu.lastReset < now - DAY_IN_MS ∧ eu.lastComment < now - DAY_IN_MS <;>
      simp [hc]
  · rw [show (cleanup now s).userIPMappings = s.userIPMappings.filter
        (fun kv => if kv.2.lastReset < now - DAY_IN_MS then false else true) from rfl,
      lookupA_filter _ hnd3 hm]
    by_cases hc : m.lastReset < now - DAY_IN_MS <;> simp [hc]

/-- A state holding one stale address entry, one stale identity entry and one
fresh linkage entry, swept at now = 24h + 100 ms. -/
def c4wstate : RLState :=
  { emptyState with
    ipLimits := [("a", ⟨1, 0, 0, some 0⟩)]
    userLimits := [("u", ⟨2, 50, 60, some 0⟩)]
    userIPMappings := [("u", ⟨"u", ["a"], 3, 200⟩)] }

/-- Witness for the amended C4: both quota entries are evicted, the linkage
entry (lastReset = 200 ≥ dayAgo = 100) survives. -/
theorem C4_cleanup_sweep_witness :
    lookupA "a" (cleanup (DAY_IN_MS + 100) c4wstate).ipLimits = none ∧
    lookupA "u" (cleanup (DAY_IN_MS + 100) c4wstate).userLimits = none ∧
    lookupA "u" (cleanup (DAY_IN_MS + 100) c4wstate).userIPMappings =
      some ⟨"u", ["a"], 3, 200⟩ :=
  C4_cleanup_sweep (DAY_IN_MS + 100) c4wstate (by simp [keysNodup, c4wstate])
    (by simp [keysNodup, c4wstate]) (by simp [keysNodup, c4wstate])
    "a" "u" ⟨1, 0, 0, some 0⟩ ⟨2, 50, 60, some 0⟩ ⟨"u", ["a"], 3, 200⟩ rfl rfl rfl

/-! ## Claim C6 -/

/-- Identity "alice" uses address "A" at t = 1000, then address "B" a full day
later, which triggers the daily linkage reset. -/
def c6state : RLState :=
  updateUserIPMapping "alice" "B" (1000 + DAY_IN_MS)
    (updateUserIPMapping "alice" "A" 1000 emptyState)

/-- Claim C6 counterexample: the second operation observed
`now - resetAt ≥ 24h`, so `totalDailyComments` and `lastReset` were reset
(to 0 and 1000 + 24h), yet `ips` is ["A", "B"]: it still contains "A", which
was only used at t = 1000, before the reset. The claim that after a daily
reset the addresses set contains only addresses used since that reset (which
would be ["B"]) is false at this input: the set is never cleared. -/
theorem C6_counterexample :
    lookupA "alice" c6state.userIPMappings =
      some ⟨"alice", ["A", "B"], 0, 1000 + DAY_IN_MS⟩ := by
  rfl

/-- Claim C6 (amended): `aggregateDailyPosts` and `resetAt` do reset together
whenever an operation observes `now - resetAt ≥ 24h`, but the `addresses`
set is NOT restricted to the current day window: the update keeps every
previously recorded address (it only ever grows until the Janitor evicts the
whole entry). -/
theorem C6_linkage_reset (username ip : String) (now : Int) (s : RLState)
    (m : UserIPMapping) (hm : lookupA username s.userIPMappings = some m)
    (hstale : now - m.lastReset ≥ DAY_IN_MS) :
    lookupA username (updateUserIPMapping username ip now s).userIPMappings =
      some ⟨m.username, addToSet ip m.ips, 0, now⟩ ∧
    ∀ x ∈ m.ips, x ∈ addToSet ip m.ips := by
  constructor
  · simp only [updateUserIPMapping, hm, hstale, if_true]
    exact lookupA_insertA_self _ _ _
  · intro x hx
    by_cases hmem : ip ∈ m.ips <;> simp [addToSet, hmem, hx]

/-- A linkage entry for "alice" with one old address and a day-old window. -/
def c6wstate : RLState :=
  { emptyState with userIPMappings := [("alice", ⟨"alice", ["A"], 5, 1000⟩)] }

/-- Witness for the amended C6 at a concrete day-old linkage entry. -/
theorem C6_linkage_reset_witness :
    lookupA "alice"
      (updateUserIPMapping "alice" "B" (1000 + DAY_IN_MS) c6wstate).userIPMappings =
      some ⟨"alice", addToSet "B" ["A"], 0, 1000 + DAY_IN_MS⟩ ∧
    ∀ x ∈ ["A"], x ∈ addToSet "B" ["A"] :=
  C6_linkage_reset "alice" "B" (1000 + DAY_IN_MS) c6wstate ⟨"alice", ["A"], 5, 1000⟩
    rfl (by decide)

/-! ## Claim C1 -/

/-- A configuration with dailyCap = 1 (the spec example's setting). -/
def cfg1 : Config := ⟨1, 1000, 500⟩

/-- A configuration with dailyCap = 3, used to show when the cross-address
deny actually fires. -/
def cfg3 : Config := ⟨3, 1000, 500⟩

/-- Claim C1 counterexample: with dailyCap = 1, alice posts once from "A"
(checked and recorded at t = 10000), then a post-admission check from the
never-used address "B" at t = 12000 is denied — but with the per-identity
daily-limit reason ("Username daily limit exceeded"), not the cross-address
reason: `checkUserLimit` runs before `checkAggregationLimit` and alice's own
count (1) already reaches the cap, so the claim that the denial carries the
cross-address reason is false at this input. -/
theorem C1_counterexample :
    (checkRateLimit cfg1 "A" "alice" 10000 emptyState).1 = CheckResult.allow ∧
    (recordComment "A" "alice" 10000
        (checkRateLimit cfg1 "A" "alice" 10000 emptyState).2).map
      (fun s2 => (checkRateLimit cfg1 "B" "alice" 12000 s2).1) =
      some (CheckResult.deny DenyReason.userDaily) ∧
    DenyReason.userDaily ≠ DenyReason.crossIP := by
  exact ⟨rfl, rfl, by decide⟩

/-- Claim C1 (amended): in the dailyCap = 1 scenario the check from address
"B" IS denied, but with the per-identity daily-limit reason, because
`checkUserLimit` fires before the aggregation check. The cross-address deny
with `effective = B.count + aggregate ≥ dailyCap` occurs when the per-address
and per-identity checks pass first: with dailyCap = 3 and two posts from "A"
(aggregate = 2, A.count = 2), a check from fresh "B" is denied with the
cross-address reason, even though B itself has never posted. -/
theorem C1_cross_address_example :
    (recordComment "A" "alice" 10000
        (checkRateLimit cfg1 "A" "alice" 10000 emptyState).2).map
      (fun s2 => (checkRateLimit cfg1 "B" "alice" 12000 s2).1) =
      some (CheckResult.deny DenyReason.userDaily) ∧
    ((recordComment "A" "alice" 10000
        (checkRateLimit cfg3 "A" "alice" 10000 emptyState).2).map
      (fun s2 => (checkRateLimit cfg3 "A" "alice" 12000 s2).1)) =
      some CheckResult.allow ∧
    ((recordComment "A" "alice" 10000
        (checkRateLimit cfg3 "A" "alice" 10000 emptyState).2).bind
      (fun s2 => recordComment "A" "alice" 12000
        (checkRateLimit cfg3 "A" "alice" 12000 s2).2)).map
      (fun s4 => (checkRateLimit cfg3 "B" "alice" 14000 s4).1) =
      some (CheckResult.deny DenyReason.crossIP) := by
  exact ⟨rfl, rfl, rfl⟩

/-! ## Claim C8 -/

/-- Claim C8 counterexample: a configured daily cap of 0 is NOT accepted as
valid configuration: the constructor computes `Number(env) || 100`, and 0 is
falsy in JS, so the configured 0 is silently replaced by the default 100
(likewise a configured interval 0 becomes 5000). -/
theorem C8_counterexample :
    (mkConfig false (some 0) (some 0) none).DAILY_LIMIT = 100 ∧
    (mkConfig false (some 0) (some 0) none).COMMENT_INTERVAL = 5000 ∧
    (100 : Int) ≠ 0 := by
  exact ⟨rfl, rfl, by decide⟩

/-- Claim C8 (amended): the check semantics do honour the edge values — a
limiter whose `DAILY_LIMIT` field is 0 denies every post with the daily-limit
reason, and a `COMMENT_INTERVAL` of 0 disables spacing entirely, so an
immediate repeat (same millisecond as the last post) is allowed when the cap
is not exhausted — but a configured 0 never reaches those fields: `mkConfig`
replaces it with the default. -/
theorem C8_zero_edge (cfgA cfgB : Config) (ipA ipB : String) (nowA nowB : Int)
    (sA sB : RLState) (eA eB : RateLimitEntry) (envC envR : Option Int)
    (heA : lookupA ipA sA.ipLimits = some eA)
    (hcap : cfgA.DAILY_LIMIT = 0) (hcntA : 0 ≤ eA.count)
    (heB : lookupA ipB sB.ipLimits = some eB)
    (hint : cfgB.COMMENT_INTERVAL = 0) (hlastB : eB.lastComment = nowB)
    (hcapB : (if nowB - eB.lastReset ≥ DAY_IN_MS then 0 else eB.count) <
      cfgB.DAILY_LIMIT) :
    (mkConfig false (some 0) envC envR).DAILY_LIMIT = 100 ∧
    (checkIPLimit cfgA ipA nowA sA).1 = CheckResult.deny DenyReason.ipDaily ∧
    (checkIPLimit cfgB ipB nowB sB).1 = CheckResult.allow := by
  refine ⟨rfl, ?_, ?_⟩
  · rw [checkIPLimit_fst cfgA ipA nowA sA eA heA]
    rw [if_pos (by rw [hcap]; split_ifs <;> omega)]
  · rw [checkIPLimit_fst cfgB ipB nowB sB eB heB]
    rw [if_neg (not_le.mpr hcapB), if_neg (by rw [hint, hlastB]; omega)]

/-- Witness for the amended C8: cap-0 config denies a live entry, interval-0
config admits an immediate repeat. -/
theorem C8_zero_edge_witness :
    (mkConfig false (some 0) (some 7) none).DAILY_LIMIT = 100 ∧
    (checkIPLimit ⟨0, 1000, 500⟩ "1.2.3.4" 500 staleState).1 =
      CheckResult.deny DenyReason.ipDaily ∧
    (checkIPLimit ⟨100, 0, 500⟩ "1.2.3.4" 3 staleState).1 = CheckResult.allow :=
  C8_zero_edge ⟨0, 1000, 500⟩ ⟨100, 0, 500⟩ "1.2.3.4" "1.2.3.4" 500 3
    staleState staleState ⟨7, 0, 3, some 4⟩ ⟨7, 0, 3, some 4⟩ (some 7) none
    rfl rfl (by decide) rfl rfl rfl (by decide)

/-! ## Claim C9 -/

/-- Claim C9: a stored `lastRetrieval` of 0 (the creation value) or an absent
one is a "never retrieved" sentinel, not a timestamp: the retrieval checks
allow such entries for every interval and every `now`, including the entry a
retrieval check on an unknown key creates for itself and the entry a post
check (`checkIPLimit`) creates. -/
theorem C9_zero_sentinel (cfg : Config)
    (s1 : RLState) (ip1 : String) (now1 : Int)
    (h1 : lookupA ip1 s1.ipLimits = none)
    (s2 : RLState) (ip2 : String) (now2 : Int) (e2 : RateLimitEntry)
    (h2 : lookupA ip2 s2.ipLimits = some e2)
    (h2r : e2.lastRetrieval = none ∨ e2.lastRetrieval = some 0)
    (s3 : RLState) (u3 : String) (now3 : Int) (e3 : RateLimitEntry)
    (h3 : lookupA u3 s3.userLimits = some e3)
    (h3r : e3.lastRetrieval = none ∨ e3.lastRetrieval = some 0)
    (s4 : RLState) (ip4 : String) (t4 now4 : Int)
    (h4 : lookupA ip4 s4.ipLimits = none) :
    (checkIPRetrievalLimit cfg ip1 now1 s1).1 = CheckResult.allow ∧
    (checkIPRetrievalLimit cfg ip2 now2 s2).1 = CheckResult.allow ∧
    (checkUserRetrievalLimit cfg u3 now3 s3).1 = CheckResult.allow ∧
    (checkIPRetrievalLimit cfg ip4 now4 ((checkIPLimit cfg ip4 t4 s4).2)).1 =
      CheckResult.allow := by
  refine ⟨?_, ?_, ?_, ?_⟩
  · simp [checkIPRetrievalLimit, h1, checkTimeInterval]
  · rcases h2r with h2r | h2r <;> simp [checkIPRetrievalLimit, h2, checkTimeInterval, h2r]
  · rcases h3r with h3r | h3r <;>
      simp [checkUserRetrievalLimit, h3, checkTimeInterval, h3r]
  · have hday : DAY_IN_MS = 86400000 := rfl
    have hlk : lookupA ip4 ((checkIPLimit cfg ip4 t4 s4).2).ipLimits =
        some ⟨0, t4, 0, some 0⟩ := by
      have hst : ¬(t4 - t4 ≥ DAY_IN_MS) := by omega
      simp only [checkIPLimit, h4, hst, if_false]
      split_ifs <;> simp [lookupA_insertA_self]
    simp [checkIPRetrievalLimit, hlk, checkTimeInterval]

/-- Witness for C9 at fresh keys and at entries whose `lastRetrieval` is the
0 sentinel. -/
theorem C9_zero_sentinel_witness :
    (checkIPRetrievalLimit cfgT "x" 5 emptyState).1 = CheckResult.allow ∧
    (checkIPRetrievalLimit cfgT "a" 7 c4wstate).1 = CheckResult.allow ∧
    (checkUserRetrievalLimit cfgT "u" 9 c4wstate).1 = CheckResult.allow ∧
    (checkIPRetrievalLimit cfgT "y" 11 ((checkIPLimit cfgT "y" 4 emptyState).2)).1 =
      CheckResult.allow :=
  C9_zero_sentinel cfgT emptyState "x" 5 rfl c4wstate "a" 7 ⟨1, 0, 0, some 0⟩ rfl
    (Or.inr rfl) c4wstate "u" 9 ⟨2, 50, 60, some 0⟩ rfl (Or.inr rfl)
    emptyState "y" 4 11 rfl

/-! ## Claim C10 -/

/-- A state in which address "1.1.1.1" has a retrieval recorded at t = 5000. -/
def c10state : RLState := updateIPRetrievalTime "1.1.1.1" 5000 emptyState

/-- Claim C10 counterexample: at t = 5100 (100 ms after the last retrieval,
test interval 500 ms) the retrieval-admission check for ("1.1.1.1", alice) is
denied at the address stage, and alice's linkage entry is never created: a
retrieval-admission check does NOT always add the requesting address to the
identity's linkage set — the linkage update only runs after the address-stage
check passes. -/
theorem C10_counterexample :
    (checkRetrievalRateLimit cfgT "1.1.1.1" (some "alice") 5100 c10state).1 =
      CheckResult.deny DenyReason.retrievalWait ∧
    lookupA "alice"
      ((checkRetrievalRateLimit cfgT "1.1.1.1" (some "alice") 5100
        c10state).2).userIPMappings = none := by
  exact ⟨rfl, rfl⟩

theorem checkUserRetrievalLimit_mappings (cfg : Config) (u : String) (now : Int)
    (s : RLState) :
    ((checkUserRetrievalLimit cfg u now s).2).userIPMappings = s.userIPMappings := by
  rcases ha : lookupA u s.userLimits with _ | e <;> simp only [checkUserRetrievalLimit, ha]

theorem mem_addToSet_self (x : String) (l : List String) : x ∈ addToSet x l := by
  by_cases h : x ∈ l <;> simp [addToSet, h]

theorem updateUserIPMapping_mem (u ip : String) (now : Int) (s : RLState) :
    ∃ m, lookupA u (updateUserIPMapping u ip now s).userIPMappings = some m ∧
      ip ∈ m.ips := by
  rcases hm : lookupA u s.userIPMappings with _ | m
  · simp only [updateUserIPMapping, hm]
    exact ⟨⟨u, [ip], 0, now⟩, lookupA_insertA_self _ _ _, by simp⟩
  · simp only [updateUserIPMapping, hm]
    exact ⟨_, lookupA_insertA_self _ _ _, mem_addToSet_self _ _⟩

/-- The state after retrieval checks for alice from "A" at t = 1000 then from
"B" at t = 2000, starting empty — no post ever recorded. -/
def c10two : RLState :=
  (checkRetrievalRateLimit cfgT "B" (some "alice") 2000
    (checkRetrievalRateLimit cfgT "A" (some "alice") 1000 emptyState).2).2

/-- Claim C10 (amended): whenever the address-stage retrieval check passes, a
retrieval-admission check with an identity adds the requesting address to
that identity's linkage set (the same `updateUserIPMapping` as the post
path); consequently two allowed retrieval checks for one identity from two
distinct addresses, with no post ever recorded, leave a linkage with both
addresses, and a subsequent post-admission aggregation check enters the
cross-address branch (here it denies with the cross-address reason under a
cap-0 configuration, a deny only that branch can produce). -/
theorem C10_retrieval_linkage (cfg : Config) (ip u : String) (now : Int)
    (s : RLState)
    (hallow : (checkIPRetrievalLimit cfg ip now s).1 = CheckResult.allow) :
    (∃ m, lookupA u
        ((checkRetrievalRateLimit cfg ip (some u) now s).2).userIPMappings =
        some m ∧ ip ∈ m.ips) ∧
    (checkRetrievalRateLimit cfgT "A" (some "alice") 1000 emptyState).1 =
      CheckResult.allow ∧
    (checkRetrievalRateLimit cfgT "B" (some "alice") 2000
      (checkRetrievalRateLimit cfgT "A" (some "alice") 1000 emptyState).2).1 =
      CheckResult.allow ∧
    (lookupA "alice" c10two.userIPMappings).map UserIPMapping.ips =
      some ["A", "B"] ∧
    (checkAggregationLimit ⟨0, 1000, 500⟩ "alice" "C" 3000 c10two).1 =
      CheckResult.deny DenyReason.crossIP := by
  refine ⟨?_, rfl, rfl, rfl, rfl⟩
  rcases hc : checkIPRetrievalLimit cfg ip now s with ⟨r1, s1⟩
  rw [hc] at hallow
  simp only at hallow
  subst hallow
  rcases hc2 : checkUserRetrievalLimit cfg u now (updateUserIPMapping u ip now s1)
    with ⟨r2, s3⟩
  have hmaps : s3.userIPMappings =
      (updateUserIPMapping u ip now s1).userIPMappings := by
    have := checkUserRetrievalLimit_mappings cfg u now (updateUserIPMapping u ip now s1)
    rw [hc2] at this
    exact this
  simp only [checkRetrievalRateLimit, hc, hc2]
  cases r2 with
  | deny r =>
    rw [hmaps]
    exact updateUserIPMapping_mem u ip now s1
  | allow =>
    rcases hagg : checkRetrievalAggregationLimit cfg u ip now s3 with _ | r
    · simp only [hagg]
      rw [hmaps]
      exact updateUserIPMapping_mem u ip now s1
    · simp only [hagg]
      rw [hmaps]
      exact updateUserIPMapping_mem u ip now s1

/-- Witness for the amended C10 at a fresh address and identity. -/
theorem C10_retrieval_linkage_witness :
    (∃ m, lookupA "bob"
        ((checkRetrievalRateLimit cfgT "x" (some "bob") 7 emptyState).2).userIPMappings =
        some m ∧ "x" ∈ m.ips) ∧
    (checkRetrievalRateLimit cfgT "A" (some "alice") 1000 emptyState).1 =
      CheckResult.allow ∧
    (checkRetrievalRateLimit cfgT "B" (some "alice") 2000
      (checkRetrievalRateLimit cfgT "A" (some "alice") 1000 emptyState).2).1 =
      CheckResult.allow ∧
    (lookupA "alice" c10two.userIPMappings).map UserIPMapping.ips =
      some ["A", "B"] ∧
    (checkAggregationLimit ⟨0, 1000, 500⟩ "alice" "C" 3000 c10two).1 =
      CheckResult.deny DenyReason.crossIP :=
  C10_retrieval_linkage cfgT "x" "bob" 7 emptyState rfl

end VDS
